import Mathlib

/-!
Shallow embedding of the solar-system scene script (src/script.js).

Parameters that the script writes as JS number literals are modelled as
rationals; angles (rotation fields of scene-graph nodes) live in the reals,
built through `degToRad`, the embedding of `THREE.MathUtils.degToRad`
(degrees times pi over 180).  The scene graph produced by `createPlanet`
is embedded structurally: each handle records the transforms of the nodes
it references together with explicit child lists mirroring the `add` calls
of the source, so parent/child attachment is a provable fact rather than
an artefact of the encoding.  The per-frame update `animate` (minus the
render submission and the camera-controls damping, which touch no
scene-graph node owned by the handles) is the pure state transformer
`tick`.  The camera in the script is never attached to the scene, so it is
modelled separately for the resize handler.
-/

namespace SolarSystem

/-- The embedding of `THREE.MathUtils.degToRad`: degrees to radians,
`d * pi / 180`. -/
noncomputable def degToRad (d : ℚ) : ℝ := (d : ℝ) * (Real.pi / 180)

/-- A three-component vector (used for positions, Euler rotations, scales). -/
structure Vec3 where
  x : ℝ
  y : ℝ
  z : ℝ

/-- The transform state of a `THREE.Object3D`: position, Euler rotation, scale. -/
structure Transform where
  position : Vec3
  rotation : Vec3
  scale : Vec3

/-- A fresh `Object3D`: position `(0,0,0)`, rotation `(0,0,0)`, scale `(1,1,1)`. -/
def defaultTransform : Transform :=
  { position := ⟨0, 0, 0⟩, rotation := ⟨0, 0, 0⟩, scale := ⟨1, 1, 1⟩ }

/-- Add `a` to the `y` component (the `rotation.y += a` pattern of the script). -/
def Vec3.addY (v : Vec3) (a : ℝ) : Vec3 := { v with y := v.y + a }

/-- Ring descriptor as passed to `createPlanet` (`{ inner, outer, color }`). -/
structure RingParams where
  inner : ℚ
  outer : ℚ
  color : ℕ
deriving DecidableEq

/-- Moon descriptor (`{ radius, distance, orbitalSpeed, color }`); the script
reads `m.color ?? 0xaaaaaa`, so `color` is optional. -/
structure MoonParams where
  radius : ℚ
  distance : ℚ
  orbitalSpeed : ℚ
  color : Option ℕ
deriving DecidableEq

/-- The destructured argument of `createPlanet`; `none` encodes an omitted
field (filled by the JS destructuring default). -/
structure BodyParams where
  name : Option String := none
  radius : Option ℚ := none
  color : Option ℕ := none
  distance : Option ℚ := none
  orbitalSpeed : Option ℚ := none
  spinSpeed : Option ℚ := none
  tiltDeg : Option ℚ := none
  ring : Option RingParams := none
  moons : Option (List MoonParams) := none
deriving DecidableEq

/-- A sphere mesh: transform plus `SphereGeometry(radius, w, h)` and the
material color. -/
structure SphereMesh where
  transform : Transform
  radius : ℚ
  widthSegs : ℕ
  heightSegs : ℕ
  color : ℕ

/-- Data of `RingGeometry(inner, outer, 64)` plus the net geometry rotation about x
applied by `rotateX` calls. -/
structure RingGeo where
  inner : ℚ
  outer : ℚ
  thetaSegs : ℕ
  rotX : ℝ

/-- The call `geometry.rotateX(a)`: bakes a rotation about x into the geometry. -/
def RingGeo.rotateX (g : RingGeo) (a : ℝ) : RingGeo := { g with rotX := g.rotX + a }

/-- The ring mesh: transform, rotated geometry, and `MeshBasicMaterial`
settings (`side: DoubleSide, transparent: true, opacity: 0.6`). -/
structure RingMesh where
  transform : Transform
  geo : RingGeo
  color : ℕ
  doubleSided : Bool
  translucent : Bool
  opacity : ℚ

/-- One entry of `moonPivots`: the pivot group, the moon mesh attached under
it, and the recorded orbital speed (`{ pivot, speed }` plus the mesh, which
is a child of the pivot). -/
structure MoonEntry where
  pivot : Transform
  moonMesh : SphereMesh
  speed : ℚ

/-- Roles of the child nodes attached inside `createPlanet`, used to record
the parent/child attachment produced by the `add` calls. -/
inductive ChildRole where
  | orbitLine : ChildRole
  | planetGroupNode : ChildRole
  | bodyMesh : ChildRole
  | ringNode : ChildRole
  | moonPivotNode : ℕ → ChildRole
deriving DecidableEq

/-- The handle returned by `createPlanet`, together with the transforms of
every node it created and the child lists of the two group nodes. -/
structure PlanetHandle where
  name : String
  orbitPivot : Transform
  orbitLine : Transform
  orbitLinePts : List Vec3
  planetGroup : Transform
  mesh : SphereMesh
  ringMesh : Option RingMesh
  spinSpeed : ℚ
  orbitalSpeed : ℚ
  moonPivots : List MoonEntry
  orbitPivotChildren : List ChildRole
  planetGroupChildren : List ChildRole

/-- The orbit-path vertices: `EllipseCurve(0,0,d,d,0,2*pi,false,0)` sampled by
`getPoints(128)` (129 points at `t = i/128`, `getPoint t = (d cos(2 pi t),
d sin(2 pi t))`), each mapped to `Vector3(p.x, 0, p.y)`. -/
noncomputable def orbitPathPoints (distance : ℚ) : List Vec3 :=
  (List.range 129).map fun i =>
    ⟨(distance : ℝ) * Real.cos (2 * Real.pi * ((i : ℝ) / 128)), 0,
      (distance : ℝ) * Real.sin (2 * Real.pi * ((i : ℝ) / 128))⟩

/-- The body factory `createPlanet` (src/script.js:79-152): destructures its argument with
defaults, builds orbit pivot, orbit line, planet group (positioned at
`(distance,0,0)`, tilted about z), body mesh, optional ring, moon pivots,
and returns the handle record. -/
noncomputable def createPlanet (p : BodyParams) : PlanetHandle :=
  let name := p.name.getD "planet"
  let radius := p.radius.getD 2
  let color := p.color.getD 0xB1B1B1
  let distance := p.distance.getD 25
  let orbSpeed := p.orbitalSpeed.getD 0.5
  let spinSpeed := p.spinSpeed.getD 15
  let tiltDeg := p.tiltDeg.getD 0
  let moons := p.moons.getD []
  let planetGroup : Transform :=
    { defaultTransform with
        position := ⟨(distance : ℝ), 0, 0⟩
        rotation := ⟨0, 0, degToRad tiltDeg⟩ }
  let ringMesh : Option RingMesh := p.ring.map fun r =>
    { transform := defaultTransform
      geo := RingGeo.rotateX ⟨r.inner, r.outer, 64, 0⟩ (-(Real.pi / 2))
      color := r.color
      doubleSided := true
      translucent := true
      opacity := 0.6 }
  let moonPivots : List MoonEntry := moons.map fun m =>
    { pivot := defaultTransform
      moonMesh :=
        { transform := { defaultTransform with position := ⟨(m.distance : ℝ), 0, 0⟩ }
          radius := m.radius
          widthSegs := 24
          heightSegs := 24
          color := m.color.getD 0xAAAAAA }
      speed := m.orbitalSpeed }
  { name := name
    orbitPivot := { defaultTransform with position := ⟨0, 0, 0⟩ }
    orbitLine := defaultTransform
    orbitLinePts := orbitPathPoints distance
    planetGroup := planetGroup
    mesh := { transform := defaultTransform, radius := radius,
              widthSegs := 32, heightSegs := 32, color := color }
    ringMesh := ringMesh
    spinSpeed := spinSpeed
    orbitalSpeed := orbSpeed
    moonPivots := moonPivots
    orbitPivotChildren := [ChildRole.orbitLine, ChildRole.planetGroupNode]
    planetGroupChildren :=
      [ChildRole.bodyMesh]
        ++ (if p.ring.isSome then [ChildRole.ringNode] else [])
        ++ (List.range moons.length).map ChildRole.moonPivotNode }

/-- The mercury call (src/script.js:158-165). -/
def mercuryParams : BodyParams :=
  { name := some "mercury", radius := some 2, color := some 0xB1B1B1,
    distance := some 22, orbitalSpeed := some 47.8, spinSpeed := some 3.0 }

/-- The venus call (src/script.js:168-175). -/
def venusParams : BodyParams :=
  { name := some "venus", radius := some 3, color := some 0xEEDC82,
    distance := some 34, orbitalSpeed := some 35, spinSpeed := some (-2.0) }

/-- The earth call (src/script.js:178-187). -/
def earthParams : BodyParams :=
  { name := some "earth", radius := some 3.2, color := some 0x2E8B57,
    distance := some 48, orbitalSpeed := some 29.7, spinSpeed := some 18.0,
    tiltDeg := some 23.5,
    moons := some [⟨0.9, 6, 12.0, some 0xffffff⟩] }

/-- The mars call (src/script.js:190-198). -/
def marsParams : BodyParams :=
  { name := some "mars", radius := some 2.4, color := some 0xB22222,
    distance := some 62, orbitalSpeed := some 24.1, spinSpeed := some 16.0,
    moons := some [⟨0.6, 4.5, 18.0, some 0xdddddd⟩] }

/-- The jupiter call (src/script.js:201-209). -/
def jupiterParams : BodyParams :=
  { name := some "jupiter", radius := some 7.0, color := some 0xD2B48C,
    distance := some 95, orbitalSpeed := some 13.1, spinSpeed := some 19.0,
    moons := some [⟨0.6, 4.5, 18.0, some 0xdddddd⟩] }

/-- The saturn call (src/script.js:212-221). -/
def saturnParams : BodyParams :=
  { name := some "saturn", radius := some 6.5, color := some 0xF5DEB3,
    distance := some 115, orbitalSpeed := some 9.6, spinSpeed := some 22.0,
    tiltDeg := some 26.7,
    ring := some ⟨8.0, 12.0, 0xdccfa0⟩ }

/-- The six factory calls of the startup scene, in source order. -/
def planetParamsList : List BodyParams :=
  [mercuryParams, venusParams, earthParams, marsParams, jupiterParams, saturnParams]

/-- The `planets` array: the six handles, in push order. -/
noncomputable def initPlanets : List PlanetHandle := planetParamsList.map createPlanet

/-- The sun mesh (src/script.js:61-72): `SphereGeometry(12, 48, 48)` with
material color `0x222222` (its emissive term is not animation-relevant). -/
def sunMesh0 : SphereMesh :=
  { transform := defaultTransform, radius := 12, widthSegs := 48, heightSegs := 48,
    color := 0x222222 }

/-- The mutable scene state touched by the animation loop: the sun mesh and
the planet handles. -/
structure SceneState where
  sun : SphereMesh
  planets : List PlanetHandle

/-- The scene right after startup assembly. -/
noncomputable def initScene : SceneState := { sun := sunMesh0, planets := initPlanets }

/-- Per-tick moon update: `m.pivot.rotation.y += degToRad(m.speed) * dt`. -/
noncomputable def tickMoon (dt : ℝ) (m : MoonEntry) : MoonEntry :=
  { m with pivot := { m.pivot with rotation := m.pivot.rotation.addY (degToRad m.speed * dt) } }

/-- Per-tick planet update (src/script.js:233-244): orbit pivot by
`degToRad(orbitalSpeed)*dt`, mesh by `degToRad(spinSpeed)*dt`, each moon
pivot by `degToRad(speed)*dt`. -/
noncomputable def tickPlanet (dt : ℝ) (p : PlanetHandle) : PlanetHandle :=
  { p with
      orbitPivot :=
        { p.orbitPivot with
            rotation := p.orbitPivot.rotation.addY (degToRad p.orbitalSpeed * dt) }
      mesh :=
        { p.mesh with
            transform :=
              { p.mesh.transform with
                  rotation := p.mesh.transform.rotation.addY (degToRad p.spinSpeed * dt) } }
      moonPivots := p.moonPivots.map (tickMoon dt) }

/-- One tick of `animate` (src/script.js:226-249) restricted to the scene
graph: `sun.rotation.y += degToRad(2.0)*dt`, then every planet handle is
updated.  Render submission and `controls.update()` touch no scene-graph
node and are outside the state. -/
noncomputable def tick (dt : ℝ) (s : SceneState) : SceneState :=
  { sun :=
      { s.sun with
          transform :=
            { s.sun.transform with
                rotation := s.sun.transform.rotation.addY (degToRad 2.0 * dt) } }
    planets := s.planets.map (tickPlanet dt) }

/-- The perspective camera state relevant to resizing: its aspect field and
the aspect baked into the current projection matrix. -/
structure Camera where
  fov : ℚ
  aspect : ℚ
  near : ℚ
  far : ℚ
  projAspect : ℚ

/-- The call `camera.updateProjectionMatrix()`: recompute the projection from the
current fields. -/
def Camera.updateProjectionMatrix (c : Camera) : Camera := { c with projAspect := c.aspect }

/-- The constructor `new THREE.PerspectiveCamera(fov, aspect, near, far)` computes its
projection on construction. -/
def mkCamera (fov aspect near far : ℚ) : Camera :=
  { fov := fov, aspect := aspect, near := near, far := far, projAspect := aspect }

/-- The renderer surface: the pixel-scale factor fixed by `setPixelRatio`,
the logical size, and the drawing-buffer size (logical size times scale). -/
structure Renderer where
  pixelScale : ℚ
  width : ℚ
  height : ℚ
  surfaceW : ℚ
  surfaceH : ℚ

/-- The call `renderer.setSize(w, h)`: logical size `w x h`, drawing buffer scaled by
the pixel-scale factor. -/
def Renderer.setSize (r : Renderer) (w h : ℚ) : Renderer :=
  { r with width := w, height := h, surfaceW := w * r.pixelScale, surfaceH := h * r.pixelScale }

/-- Renderer setup (src/script.js:7-9): `setPixelRatio(min(devicePixelRatio, 2))`
then `setSize(innerWidth, innerHeight)`. -/
def initRenderer (dpr w0 h0 : ℚ) : Renderer :=
  Renderer.setSize ⟨min dpr 2, 0, 0, 0, 0⟩ w0 h0

/-- Camera setup (src/script.js:15): `PerspectiveCamera(75, w/h, 0.1, 2000)`. -/
def initCamera (w0 h0 : ℚ) : Camera := mkCamera 75 (w0 / h0) 0.1 2000

/-- The resize listener (src/script.js:253-259): `camera.aspect = w/h`,
`camera.updateProjectionMatrix()`, `renderer.setSize(w, h)`.  A total
function: it returns the new state for every input. -/
def onResize (w h : ℚ) (c : Camera) (r : Renderer) : Camera × Renderer :=
  (Camera.updateProjectionMatrix { c with aspect := w / h }, r.setSize w h)

/-! ## Claim C2: the startup parameter table -/

/-- One row of the reference parameter table as the spec states it: the
numeric fields of one factory call (ring as inner/outer, moons as
radius/distance/orbitalSpeed triples). -/
structure SpecRow where
  name : String
  radius : ℚ
  distance : ℚ
  orbitalSpeed : ℚ
  spinSpeed : ℚ
  tiltDeg : ℚ
  ring : Option (ℚ × ℚ)
  moons : List (ℚ × ℚ × ℚ)
deriving DecidableEq

/-- Project a factory argument onto its spec-table row (defaults resolved
exactly as `createPlanet` resolves them). -/
def specRowOf (p : BodyParams) : SpecRow :=
  { name := p.name.getD "planet"
    radius := p.radius.getD 2
    distance := p.distance.getD 25
    orbitalSpeed := p.orbitalSpeed.getD 0.5
    spinSpeed := p.spinSpeed.getD 15
    tiltDeg := p.tiltDeg.getD 0
    ring := p.ring.map fun r => (r.inner, r.outer)
    moons := (p.moons.getD []).map fun m => (m.radius, m.distance, m.orbitalSpeed) }

/-- The reference table of the spec, row by row as the claim lists it. -/
def referenceTable : List SpecRow :=
  [ { name := "mercury", radius := 2, distance := 22, orbitalSpeed := 47.8,
      spinSpeed := 3.0, tiltDeg := 0, ring := none, moons := [] },
    { name := "venus", radius := 3, distance := 34, orbitalSpeed := 35,
      spinSpeed := -2.0, tiltDeg := 0, ring := none, moons := [] },
    { name := "earth", radius := 3.2, distance := 48, orbitalSpeed := 29.7,
      spinSpeed := 18.0, tiltDeg := 23.5, ring := none, moons := [(0.9, 6, 12.0)] },
    { name := "mars", radius := 2.4, distance := 62, orbitalSpeed := 24.1,
      spinSpeed := 16.0, tiltDeg := 0, ring := none, moons := [(0.6, 4.5, 18.0)] },
    { name := "jupiter", radius := 7.0, distance := 95, orbitalSpeed := 13.1,
      spinSpeed := 19.0, tiltDeg := 0, ring := none, moons := [(0.6, 4.5, 18.0)] },
    { name := "saturn", radius := 6.5, distance := 115, orbitalSpeed := 9.6,
      spinSpeed := 22.0, tiltDeg := 26.7, ring := some (8.0, 12.0), moons := [] } ]

/-- C2: the startup scene invokes the factory exactly six times, in the order
mercury, venus, earth, mars, jupiter, saturn, with exactly the reference
parameter table, and collects the six handles into the ordered list the
animation driver iterates. -/
theorem C2_reference_table :
    planetParamsList.length = 6 ∧
    planetParamsList.map specRowOf = referenceTable ∧
    initScene.planets = planetParamsList.map createPlanet := by
  refine ⟨rfl, ?_, rfl⟩
  rfl

/-! ## Claim C7: the resize handler -/

/-- C7: every resize notification `(w, h)` sets camera aspect to `w/h`,
recomputes the projection from it, and rescales the drawing surface by the
renderer's fixed pixel-scale factor, which startup fixed at
`min(devicePixelRatio, 2)`; in particular `(800, 600)` yields aspect
`800/600` and surface `800*min(dpr,2)` by `600*min(dpr,2)`.  `onResize` is a
total function (the handler returns nothing and always succeeds). -/
theorem C7_resize_contract :
    (∀ (w h : ℚ) (c : Camera) (r : Renderer),
        (onResize w h c r).1.aspect = w / h ∧
        (onResize w h c r).1.projAspect = w / h ∧
        (onResize w h c r).2.surfaceW = w * r.pixelScale ∧
        (onResize w h c r).2.surfaceH = h * r.pixelScale) ∧
    (∀ (dpr w0 h0 w h : ℚ),
        (onResize w h (initCamera w0 h0) (initRenderer dpr w0 h0)).2.surfaceW
          = w * min dpr 2 ∧
        (onResize w h (initCamera w0 h0) (initRenderer dpr w0 h0)).2.surfaceH
          = h * min dpr 2) ∧
    (∀ (dpr w0 h0 : ℚ),
        (onResize 800 600 (initCamera w0 h0) (initRenderer dpr w0 h0)).1.aspect
          = 800 / 600 ∧
        (onResize 800 600 (initCamera w0 h0) (initRenderer dpr w0 h0)).1.projAspect
          = 800 / 600 ∧
        (onResize 800 600 (initCamera w0 h0) (initRenderer dpr w0 h0)).2.surfaceW
          = 800 * min dpr 2 ∧
        (onResize 800 600 (initCamera w0 h0) (initRenderer dpr w0 h0)).2.surfaceH
          = 600 * min dpr 2) :=
  ⟨fun _ _ _ _ => ⟨rfl, rfl, rfl, rfl⟩,
   fun _ _ _ _ _ => ⟨rfl, rfl⟩,
   fun _ _ _ => ⟨rfl, rfl, rfl, rfl⟩⟩

/-! ## Claim C8: defaults and totality of the factory -/

/-- The empty argument record: every destructured field omitted. -/
def emptyBodyParams : BodyParams := {}

/-- The documented defaults, passed explicitly. -/
def explicitDefaultParams : BodyParams :=
  { name := some "planet", radius := some 2, color := some 0xB1B1B1,
    distance := some 25, orbitalSpeed := some 0.5, spinSpeed := some 15,
    tiltDeg := some 0, ring := none, moons := some [] }

/-- C8: `createPlanet` is total (it is a Lean function on all of
`BodyParams`, with no error branch) and fills every omitted field with the
documented default: the empty record builds exactly the same handle as the
explicit defaults, with radius 2, color `0xB1B1B1`, distance 25, orbital
speed 0.5, spin speed 15, tilt 0, no ring and no moons. -/
theorem C8_defaults_total :
    createPlanet emptyBodyParams = createPlanet explicitDefaultParams ∧
    (createPlanet emptyBodyParams).name = "planet" ∧
    (createPlanet emptyBodyParams).mesh.radius = 2 ∧
    (createPlanet emptyBodyParams).mesh.color = 0xB1B1B1 ∧
    (createPlanet emptyBodyParams).planetGroup.position.x = 25 ∧
    (createPlanet emptyBodyParams).orbitalSpeed = 0.5 ∧
    (createPlanet emptyBodyParams).spinSpeed = 15 ∧
    (createPlanet emptyBodyParams).planetGroup.rotation.z = degToRad 0 ∧
    (createPlanet emptyBodyParams).ringMesh = none ∧
    (createPlanet emptyBodyParams).moonPivots = [] := by
  refine ⟨rfl, rfl, rfl, rfl, ?_, rfl, rfl, rfl, rfl, rfl⟩
  norm_num [createPlanet, emptyBodyParams]

/-! ## Claim C1: per-tick increments and the dt = 1 scenario -/

/-- C1: every tick adds `degToRad(2.0)*dt` to the sun mesh y-rotation and,
for every planet handle, adds `degToRad(orbitalSpeed)*dt` to the orbit
pivot, `degToRad(spinSpeed)*dt` to the body mesh (sign preserved: a
negative spin speed strictly decreases the angle on a positive `dt`) and
`degToRad(moon.speed)*dt` to each moon pivot; from the startup scene, one
tick with `dt = 1` leaves earth at orbit pivot `degToRad 29.7`, mesh
`degToRad 18.0` and first moon pivot `degToRad 12.0`. -/
theorem C1_tick_increments :
    (∀ (dt : ℝ) (s : SceneState),
        (tick dt s).sun.transform.rotation.y
          = s.sun.transform.rotation.y + degToRad 2.0 * dt ∧
        (tick dt s).planets = s.planets.map (tickPlanet dt)) ∧
    (∀ (dt : ℝ) (p : PlanetHandle),
        (tickPlanet dt p).orbitPivot.rotation.y
          = p.orbitPivot.rotation.y + degToRad p.orbitalSpeed * dt ∧
        (tickPlanet dt p).mesh.transform.rotation.y
          = p.mesh.transform.rotation.y + degToRad p.spinSpeed * dt ∧
        (tickPlanet dt p).moonPivots = p.moonPivots.map (tickMoon dt)) ∧
    (∀ (dt : ℝ) (m : MoonEntry),
        (tickMoon dt m).pivot.rotation.y
          = m.pivot.rotation.y + degToRad m.speed * dt) ∧
    (∀ (dt : ℝ) (p : PlanetHandle), 0 < dt → p.spinSpeed < 0 →
        (tickPlanet dt p).mesh.transform.rotation.y < p.mesh.transform.rotation.y) ∧
    ((tick 1 initScene).planets[2]?.map fun p => p.orbitPivot.rotation.y)
      = some (degToRad 29.7) ∧
    ((tick 1 initScene).planets[2]?.map fun p => p.mesh.transform.rotation.y)
      = some (degToRad 18.0) ∧
    (((tick 1 initScene).planets[2]?.bind fun p => p.moonPivots[0]?).map
        fun m => m.pivot.rotation.y)
      = some (degToRad 12.0) := by
  refine ⟨fun dt s => ⟨rfl, rfl⟩, fun dt p => ⟨rfl, rfl, rfl⟩, fun dt m => rfl,
    ?_, ?_, ?_, ?_⟩
  · intro dt p hdt hs
    have hcast : (p.spinSpeed : ℝ) < 0 := by exact_mod_cast hs
    have hneg : degToRad p.spinSpeed < 0 := by
      have hpi : (0:ℝ) < Real.pi / 180 := by positivity
      simpa [degToRad] using mul_neg_of_neg_of_pos hcast hpi
    have hprod : degToRad p.spinSpeed * dt < 0 := mul_neg_of_neg_of_pos hneg hdt
    have heq : (tickPlanet dt p).mesh.transform.rotation.y
        = p.mesh.transform.rotation.y + degToRad p.spinSpeed * dt := rfl
    rw [heq]
    linarith
  · have h : ((tick 1 initScene).planets[2]?.map fun p => p.orbitPivot.rotation.y)
        = some (0 + degToRad 29.7 * 1) := rfl
    rw [h]
    norm_num
  · have h : ((tick 1 initScene).planets[2]?.map fun p => p.mesh.transform.rotation.y)
        = some (0 + degToRad 18.0 * 1) := rfl
    rw [h]
    norm_num
  · have h : (((tick 1 initScene).planets[2]?.bind fun p => p.moonPivots[0]?).map
        fun m => m.pivot.rotation.y) = some (0 + degToRad 12.0 * 1) := rfl
    rw [h]
    norm_num

/-- Witness for C1 at a concrete input: `dt = 1 > 0` and venus has negative
spin speed, so one tick strictly decreases the venus mesh angle. -/
theorem C1_tick_increments_witness :
    (0:ℝ) < 1 ∧ (createPlanet venusParams).spinSpeed < 0 ∧
    (tickPlanet 1 (createPlanet venusParams)).mesh.transform.rotation.y
      < (createPlanet venusParams).mesh.transform.rotation.y := by
  have hspin : (createPlanet venusParams).spinSpeed = -2.0 := rfl
  refine ⟨by norm_num, by rw [hspin]; norm_num, ?_⟩
  exact C1_tick_increments.2.2.2.1 1 (createPlanet venusParams) (by norm_num)
    (by rw [hspin]; norm_num)

/-! ## Claim C4: a tick mutates only the four kinds of y-rotation -/

/-- C4: a tick changes only the y-rotations of the sun mesh, orbit pivots,
body meshes and moon pivots; every position, scale, other rotation
component, geometry/material datum and child attachment is preserved, so
revolution comes only from orbit-pivot rotation, never from position
animation. -/
theorem C4_tick_frame :
    (∀ (dt : ℝ) (s : SceneState),
        (tick dt s).sun.transform.position = s.sun.transform.position ∧
        (tick dt s).sun.transform.scale = s.sun.transform.scale ∧
        (tick dt s).sun.transform.rotation.x = s.sun.transform.rotation.x ∧
        (tick dt s).sun.transform.rotation.z = s.sun.transform.rotation.z ∧
        (tick dt s).sun.radius = s.sun.radius ∧
        (tick dt s).sun.color = s.sun.color ∧
        (tick dt s).planets = s.planets.map (tickPlanet dt)) ∧
    (∀ (dt : ℝ) (p : PlanetHandle),
        (tickPlanet dt p).name = p.name ∧
        (tickPlanet dt p).orbitPivot.position = p.orbitPivot.position ∧
        (tickPlanet dt p).orbitPivot.scale = p.orbitPivot.scale ∧
        (tickPlanet dt p).orbitPivot.rotation.x = p.orbitPivot.rotation.x ∧
        (tickPlanet dt p).orbitPivot.rotation.z = p.orbitPivot.rotation.z ∧
        (tickPlanet dt p).orbitLine = p.orbitLine ∧
        (tickPlanet dt p).orbitLinePts = p.orbitLinePts ∧
        (tickPlanet dt p).planetGroup = p.planetGroup ∧
        (tickPlanet dt p).mesh.transform.position = p.mesh.transform.position ∧
        (tickPlanet dt p).mesh.transform.scale = p.mesh.transform.scale ∧
        (tickPlanet dt p).mesh.transform.rotation.x = p.mesh.transform.rotation.x ∧
        (tickPlanet dt p).mesh.transform.rotation.z = p.mesh.transform.rotation.z ∧
        (tickPlanet dt p).mesh.radius = p.mesh.radius ∧
        (tickPlanet dt p).mesh.color = p.mesh.color ∧
        (tickPlanet dt p).ringMesh = p.ringMesh ∧
        (tickPlanet dt p).spinSpeed = p.spinSpeed ∧
        (tickPlanet dt p).orbitalSpeed = p.orbitalSpeed ∧
        (tickPlanet dt p).orbitPivotChildren = p.orbitPivotChildren ∧
        (tickPlanet dt p).planetGroupChildren = p.planetGroupChildren ∧
        (tickPlanet dt p).moonPivots = p.moonPivots.map (tickMoon dt)) ∧
    (∀ (dt : ℝ) (m : MoonEntry),
        (tickMoon dt m).speed = m.speed ∧
        (tickMoon dt m).moonMesh = m.moonMesh ∧
        (tickMoon dt m).pivot.position = m.pivot.position ∧
        (tickMoon dt m).pivot.scale = m.pivot.scale ∧
        (tickMoon dt m).pivot.rotation.x = m.pivot.rotation.x ∧
        (tickMoon dt m).pivot.rotation.z = m.pivot.rotation.z) :=
  ⟨fun _ _ => ⟨rfl, rfl, rfl, rfl, rfl, rfl, rfl⟩,
   fun _ _ => ⟨rfl, rfl, rfl, rfl, rfl, rfl, rfl, rfl, rfl, rfl, rfl, rfl, rfl,
     rfl, rfl, rfl, rfl, rfl, rfl, rfl⟩,
   fun _ _ => ⟨rfl, rfl, rfl, rfl, rfl, rfl⟩⟩

/-! ## Claim C6: additivity of angle accumulation -/

/-- C6: from orbit-pivot rotation 0, a tick of `t1` followed by a tick of
`t2` accumulates exactly `degToRad(orbitalSpeed) * (t1 + t2)` — two ticks
equal one tick of duration `t1 + t2`. -/
theorem C6_additivity (t1 t2 : ℝ) (p : PlanetHandle)
    (h : p.orbitPivot.rotation.y = 0) :
    (tickPlanet t2 (tickPlanet t1 p)).orbitPivot.rotation.y
      = degToRad p.orbitalSpeed * (t1 + t2) := by
  have heq : (tickPlanet t2 (tickPlanet t1 p)).orbitPivot.rotation.y
      = p.orbitPivot.rotation.y + degToRad p.orbitalSpeed * t1
          + degToRad p.orbitalSpeed * t2 := rfl
  rw [heq, h]
  ring

/-- Witness for C6: the freshly built earth handle starts at orbit rotation
0, and ticks of 1 then 2 seconds accumulate `degToRad(29.7) * 3`. -/
theorem C6_additivity_witness :
    (createPlanet earthParams).orbitPivot.rotation.y = 0 ∧
    (tickPlanet 2 (tickPlanet 1 (createPlanet earthParams))).orbitPivot.rotation.y
      = degToRad (createPlanet earthParams).orbitalSpeed * (1 + 2) :=
  ⟨rfl, C6_additivity 1 2 (createPlanet earthParams) rfl⟩

/-! ## Claim C3: orbit-path geometry -/

/-- C3: for a factory call with `distance = d` (`d ≥ 0`), every vertex of the
generated orbit polyline lies in the `y = 0` plane at Euclidean distance `d`
from the pivot origin, and the polyline is closed: its first vertex equals
its last. -/
theorem C3_orbit_path (p : BodyParams) (d : ℚ) (hd : p.distance = some d)
    (hnn : 0 ≤ d) :
    (∀ v ∈ (createPlanet p).orbitLinePts,
        v.y = 0 ∧ Real.sqrt (v.x ^ 2 + v.y ^ 2 + v.z ^ 2) = d) ∧
    (createPlanet p).orbitLinePts.head? = (createPlanet p).orbitLinePts.getLast? := by
  have hdr : (0:ℝ) ≤ (d:ℝ) := by exact_mod_cast hnn
  have hpts : (createPlanet p).orbitLinePts = orbitPathPoints d := by
    simp [createPlanet, hd]
  constructor
  · intro v hv
    rw [hpts] at hv
    simp only [orbitPathPoints, List.mem_map, List.mem_range] at hv
    obtain ⟨i, -, rfl⟩ := hv
    refine ⟨rfl, ?_⟩
    have hsum : ((d:ℝ) * Real.cos (2 * Real.pi * ((i : ℝ) / 128))) ^ 2 + (0:ℝ) ^ 2
        + ((d:ℝ) * Real.sin (2 * Real.pi * ((i : ℝ) / 128))) ^ 2 = (d:ℝ) ^ 2 := by
      have hsc := Real.sin_sq_add_cos_sq (2 * Real.pi * ((i : ℝ) / 128))
      nlinarith [hsc]
    rw [hsum]
    exact Real.sqrt_sq hdr
  · have hh : (orbitPathPoints d).head?
        = some ⟨(d:ℝ) * Real.cos (2 * Real.pi * (((0:ℕ) : ℝ) / 128)), 0,
            (d:ℝ) * Real.sin (2 * Real.pi * (((0:ℕ) : ℝ) / 128))⟩ := rfl
    have hl : (orbitPathPoints d).getLast?
        = some ⟨(d:ℝ) * Real.cos (2 * Real.pi * (((128:ℕ) : ℝ) / 128)), 0,
            (d:ℝ) * Real.sin (2 * Real.pi * (((128:ℕ) : ℝ) / 128))⟩ := rfl
    rw [hpts, hh, hl]
    norm_num [Real.cos_two_pi, Real.sin_two_pi]

/-- Witness for C3 at earth: distance 48 is supplied and nonnegative. -/
theorem C3_orbit_path_witness :
    earthParams.distance = some 48 ∧ (0:ℚ) ≤ 48 ∧
    ((∀ v ∈ (createPlanet earthParams).orbitLinePts,
        v.y = 0 ∧ Real.sqrt (v.x ^ 2 + v.y ^ 2 + v.z ^ 2) = (48:ℚ)) ∧
      (createPlanet earthParams).orbitLinePts.head?
        = (createPlanet earthParams).orbitLinePts.getLast?) :=
  ⟨rfl, by norm_num, C3_orbit_path earthParams 48 rfl (by norm_num)⟩

/-! ## Claim C5: ring attachment and exclusion from the tick -/

/-- Any tick sequence leaves the `ringMesh` reference (transform included)
untouched: folding `tickPlanet` over any list of `dt` values preserves it. -/
theorem foldl_tickPlanet_ringMesh (dts : List ℝ) (h : PlanetHandle) :
    (dts.foldl (fun a dt => tickPlanet dt a) h).ringMesh = h.ringMesh := by
  induction dts generalizing h with
  | nil => rfl
  | cons d rest ih => exact (ih (tickPlanet d h)).trans rfl

/-- C5: a supplied ring descriptor yields a ring mesh that is a child of the
planet body group and not of the orbit pivot, whose geometry was rotated by
`-pi/2` about x before attachment, and whose own rotation state is never
modified by any tick sequence. -/
theorem C5_ring_attachment (p : BodyParams) (r : RingParams) (h : p.ring = some r) :
    ((createPlanet p).ringMesh.map fun rm => (rm.geo.inner, rm.geo.outer, rm.geo.rotX))
      = some (r.inner, r.outer, -(Real.pi / 2)) ∧
    ChildRole.ringNode ∈ (createPlanet p).planetGroupChildren ∧
    ChildRole.ringNode ∉ (createPlanet p).orbitPivotChildren ∧
    ∀ (dts : List ℝ),
      (dts.foldl (fun a dt => tickPlanet dt a) (createPlanet p)).ringMesh
        = (createPlanet p).ringMesh := by
  refine ⟨?_, ?_, ?_, fun dts => foldl_tickPlanet_ringMesh dts _⟩
  · simp [createPlanet, h, RingGeo.rotateX]
  · simp [createPlanet, h]
  · simp [createPlanet]

/-- Witness for C5 at saturn, the one ringed planet of the table. -/
theorem C5_ring_attachment_witness :
    saturnParams.ring = some ⟨8.0, 12.0, 0xdccfa0⟩ ∧
    (((createPlanet saturnParams).ringMesh.map
          fun rm => (rm.geo.inner, rm.geo.outer, rm.geo.rotX))
        = some ((8.0:ℚ), (12.0:ℚ), -(Real.pi / 2)) ∧
      ChildRole.ringNode ∈ (createPlanet saturnParams).planetGroupChildren ∧
      ChildRole.ringNode ∉ (createPlanet saturnParams).orbitPivotChildren ∧
      ∀ (dts : List ℝ),
        (dts.foldl (fun a dt => tickPlanet dt a) (createPlanet saturnParams)).ringMesh
          = (createPlanet saturnParams).ringMesh) :=
  ⟨rfl, C5_ring_attachment saturnParams ⟨8.0, 12.0, 0xdccfa0⟩ rfl⟩

/-! ## Claim C9: handle shape — moons and ring presence -/

/-- C9: the handle has one `moonPivots` entry per input moon, in order, each
storing that moon's orbital speed, with every moon pivot attached to the
planet body group; and `ringMesh` is non-null iff a ring was supplied. -/
theorem C9_handle_shape (p : BodyParams) :
    (createPlanet p).moonPivots.map (fun m => m.speed)
      = (p.moons.getD []).map (fun m => m.orbitalSpeed) ∧
    (createPlanet p).moonPivots.length = (p.moons.getD []).length ∧
    (∀ i, i < (p.moons.getD []).length →
        ChildRole.moonPivotNode i ∈ (createPlanet p).planetGroupChildren) ∧
    ((createPlanet p).ringMesh.isSome ↔ p.ring.isSome) := by
  refine ⟨?_, ?_, ?_, ?_⟩
  · simp [createPlanet]
  · simp [createPlanet]
  · intro i hi
    show ChildRole.moonPivotNode i ∈
      [ChildRole.bodyMesh]
        ++ (if p.ring.isSome then [ChildRole.ringNode] else [])
        ++ (List.range (p.moons.getD []).length).map ChildRole.moonPivotNode
    exact List.mem_append.mpr
      (Or.inr (List.mem_map_of_mem _ (List.mem_range.mpr hi)))
  · simp [createPlanet]

/-- Witness for C9 at earth: index 0 is below the one-moon length, and that
moon pivot is attached to the body group. -/
theorem C9_handle_shape_witness :
    0 < (earthParams.moons.getD []).length ∧
    ChildRole.moonPivotNode 0 ∈ (createPlanet earthParams).planetGroupChildren :=
  ⟨by decide, (C9_handle_shape earthParams).2.2.1 0 (by decide)⟩

/-! ## Claim C10: undocumented moon color fallback -/

/-- C10: a moon record with no color still succeeds, and its mesh gets the
fallback color `0xAAAAAA` (`m.color ?? 0xaaaaaa` in the source). -/
theorem C10_moon_color_fallback (p : BodyParams) (i : ℕ) (mp : MoonParams)
    (hm : (p.moons.getD [])[i]? = some mp) (hc : mp.color = none) :
    ((createPlanet p).moonPivots[i]?.map fun m => m.moonMesh.color)
      = some 0xAAAAAA := by
  simp [createPlanet, List.getElem?_map, hm, hc]

/-- A factory input whose single moon omits its color. -/
def lunarTestParams : BodyParams := { moons := some [⟨0.9, 6, 12.0, none⟩] }

/-- Witness for C10 on `lunarTestParams`: the colorless moon gets `0xAAAAAA`. -/
theorem C10_moon_color_fallback_witness :
    (lunarTestParams.moons.getD [])[0]? = some ⟨0.9, 6, 12.0, none⟩ ∧
    (⟨0.9, 6, 12.0, none⟩ : MoonParams).color = none ∧
    ((createPlanet lunarTestParams).moonPivots[0]?.map fun m => m.moonMesh.color)
      = some 0xAAAAAA :=
  ⟨rfl, rfl, C10_moon_color_fallback lunarTestParams 0 ⟨0.9, 6, 12.0, none⟩ rfl rfl⟩

end SolarSystem
